import Mathlib

/-
Verification of the Orchestrate Canvas-LMS synchronization pipeline.

Shallow embedding of the Python sources:
  src/storage.py          (content hashing and per-entity upsert persistence)
  src/sync_canvas.py      (sync orchestrator and process entry point)
  src/agents/canvas_agent.py (Canvas source client)

External collaborators are modelled explicitly:
  - the PostgreSQL store is a per-table list of rows; an UPSERT statement is a
    pure function on that list; a database-raised error (constraint violation,
    connection failure) is injected through a Boolean failure oracle, matching
    the try/except/rollback structure of the Python code;
  - the Canvas HTTP layer is a response value (JSON body, HTTP error with
    optional structured message, or network error);
  - hashlib.sha256 is implemented concretely (FIPS 180-4) over byte lists,
    with machine words as Nat reduced modulo 2^32.
-/

/-- A Python value stored in a record dict: None, an int, or a str.
Numeric field values are modelled as integers. -/
inductive Value where
  | vNone : Value
  | vInt : Int → Value
  | vStr : String → Value
deriving DecidableEq

/-- Ordering on values, modelling Python comparison of dict values inside
tuple comparison in sorted(data.items()).  For inputs coming from a dict the
keys are distinct, so this tie-break between values is never reached; any
total antisymmetric choice yields the same sorted output. -/
def vle : Value → Value → Prop
  | .vNone, _ => True
  | .vInt _, .vNone => False
  | .vInt m, .vInt n => m ≤ n
  | .vInt _, .vStr _ => True
  | .vStr _, .vNone => False
  | .vStr _, .vInt _ => False
  | .vStr s, .vStr t => s ≤ t

instance : DecidableRel vle := fun a b => by
  cases a <;> cases b <;> simp only [vle] <;> infer_instance

theorem vle_total (a b : Value) : vle a b ∨ vle b a := by
  cases a <;> cases b <;> simp only [vle] <;> try trivial
  · exact Int.le_total _ _
  · exact le_total _ _

theorem vle_trans {a b c : Value} (h1 : vle a b) (h2 : vle b c) : vle a c := by
  cases a <;> cases b <;> cases c <;> simp only [vle] at * <;> try trivial
  · exact le_trans h1 h2
  · exact le_trans h1 h2

theorem vle_antisymm {a b : Value} (h1 : vle a b) (h2 : vle b a) : a = b := by
  cases a <;> cases b <;>
    simp only [vle, Value.vInt.injEq, Value.vStr.injEq] at * <;> try trivial
  · exact le_antisymm h1 h2
  · exact le_antisymm h1 h2

/-- Python tuple comparison on (key, value) items: keys first, values second. -/
def pairLe (a b : String × Value) : Prop :=
  a.1 < b.1 ∨ (a.1 = b.1 ∧ vle a.2 b.2)

instance : DecidableRel pairLe := fun a b => by
  unfold pairLe; infer_instance

instance : IsTotal (String × Value) pairLe := ⟨by
  intro a b
  rcases lt_trichotomy a.1 b.1 with h | h | h
  · exact Or.inl (Or.inl h)
  · rcases vle_total a.2 b.2 with hv | hv
    · exact Or.inl (Or.inr ⟨h, hv⟩)
    · exact Or.inr (Or.inr ⟨h.symm, hv⟩)
  · exact Or.inr (Or.inl h)⟩

instance : IsTrans (String × Value) pairLe := ⟨by
  intro a b c hab hbc
  rcases hab with h1 | ⟨e1, v1⟩ <;> rcases hbc with h2 | ⟨e2, v2⟩
  · exact Or.inl (h1.trans h2)
  · exact Or.inl (lt_of_lt_of_le h1 (le_of_eq e2))
  · exact Or.inl (lt_of_le_of_lt (le_of_eq e1) h2)
  · exact Or.inr ⟨e1.trans e2, vle_trans v1 v2⟩⟩

instance : IsAntisymm (String × Value) pairLe := ⟨by
  intro a b hab hba
  rcases hab with h1 | ⟨e1, v1⟩
  · rcases hba with h2 | ⟨e2, v2⟩
    · exact absurd h2 (lt_asymm h1)
    · exact absurd h1 (by simp [e2])
  · rcases hba with h2 | ⟨e2, v2⟩
    · exact absurd h2 (by simp [e1])
    · exact Prod.ext e1 (vle_antisymm v1 v2)⟩

/-- Model of Python sorted(data.items()).  Python uses a stable sort under
tuple comparison; since pairLe is total, transitive and antisymmetric, every
correct sort produces the same output list, so insertion sort is an
extensionally faithful model. -/
def sortPairs (items : List (String × Value)) : List (String × Value) :=
  List.insertionSort pairLe items

theorem sortPairs_eq_of_perm {l1 l2 : List (String × Value)} (h : l1.Perm l2) :
    sortPairs l1 = sortPairs l2 :=
  List.eq_of_perm_of_sorted
    (((List.perm_insertionSort pairLe l1).trans h).trans
      (List.perm_insertionSort pairLe l2).symm)
    (List.sorted_insertionSort pairLe l1) (List.sorted_insertionSort pairLe l2)

/-- Two lowercase hex digits of a byte, as in a Python backslash-x escape. -/
def hex2 (n : Nat) : String :=
  String.mk [Nat.digitChar (n / 16 % 16), Nat.digitChar (n % 16)]

/-- Quote character chosen by Python repr for a string: a single quote,
unless the string contains one and no double quote. -/
def pyQuote (s : String) : Char :=
  if s.contains (Char.ofNat 39) && !(s.contains (Char.ofNat 34)) then
    Char.ofNat 34
  else Char.ofNat 39

/-- Python repr escaping of one character under the chosen quote. -/
def pyEscapeChar (q c : Char) : String :=
  if c = '\\' then "\\\\"
  else if c = q then String.mk ['\\', c]
  else if c = '\n' then "\\n"
  else if c = '\r' then "\\r"
  else if c = '\t' then "\\t"
  else if c.toNat < 32 || c.toNat = 127 then "\\x" ++ hex2 c.toNat
  else String.mk [c]

/-- Python repr of a str value. -/
def pyStrRepr (s : String) : String :=
  let q := pyQuote s
  String.mk [q] ++ String.join (s.data.map (pyEscapeChar q)) ++ String.mk [q]

/-- Python repr of a record value. -/
def pyValRepr : Value → String
  | .vNone => "None"
  | .vInt n => toString n
  | .vStr s => pyStrRepr s

/-- Python repr of one (key, value) item tuple. -/
def pyPairRepr (p : String × Value) : String :=
  "(" ++ pyStrRepr p.1 ++ ", " ++ pyValRepr p.2 ++ ")"

/-- Python str of a list of item tuples. -/
def pyItemsRepr (l : List (String × Value)) : String :=
  "[" ++ String.intercalate ", " (l.map pyPairRepr) ++ "]"

/-- The canonical string hashed by storage.generate_content_hash:
str(sorted(data.items())). -/
def canonicalContent (data : List (String × Value)) : String :=
  pyItemsRepr (sortPairs data)

theorem canonicalContent_eq_of_perm {l1 l2 : List (String × Value)}
    (h : l1.Perm l2) : canonicalContent l1 = canonicalContent l2 := by
  unfold canonicalContent
  rw [sortPairs_eq_of_perm h]

/-- A 32-bit machine word as a Nat reduced modulo 2^32. -/
def w32 (n : Nat) : Nat := n % 4294967296

/-- Right rotation of a 32-bit word. -/
def rotr32 (k w : Nat) : Nat := w32 ((w >>> k) ||| (w <<< (32 - k)))

def bsig0 (x : Nat) : Nat := Nat.xor (rotr32 2 x) (Nat.xor (rotr32 13 x) (rotr32 22 x))

def bsig1 (x : Nat) : Nat := Nat.xor (rotr32 6 x) (Nat.xor (rotr32 11 x) (rotr32 25 x))

def ssig0 (x : Nat) : Nat := Nat.xor (rotr32 7 x) (Nat.xor (rotr32 18 x) (x >>> 3))

def ssig1 (x : Nat) : Nat := Nat.xor (rotr32 17 x) (Nat.xor (rotr32 19 x) (x >>> 10))

def chFn (x y z : Nat) : Nat := Nat.xor (Nat.land x y) (Nat.land (Nat.xor x 4294967295) z)

def majFn (x y z : Nat) : Nat := Nat.xor (Nat.land x y) (Nat.xor (Nat.land x z) (Nat.land y z))

/-- The eight SHA-256 working variables. -/
structure Sha256State where
  a : Nat
  b : Nat
  c : Nat
  d : Nat
  e : Nat
  f : Nat
  g : Nat
  h : Nat

/-- SHA-256 initial hash value (FIPS 180-4). -/
def shaInit : Sha256State :=
  ⟨1779033703, 3144134277, 1013904242, 2773480762,
   1359893119, 2600822924, 528734635, 1541459225⟩

/-- SHA-256 round constants (FIPS 180-4). -/
def shaK : List Nat :=
  [1116352408, 1899447441, 3049323471, 3921009573, 961987163, 1508970993,
   2453635748, 2870763221, 3624381080, 310598401, 607225278, 1426881987,
   1925078388, 2162078206, 2614888103, 3248222580, 3835390401, 4022224774,
   264347078, 604807628, 770255983, 1249150122, 1555081692, 1996064986,
   2554220882, 2821834349, 2952996808, 3210313671, 3336571891, 3584528711,
   113926993, 338241895, 666307205, 773529912, 1294757372, 1396182291,
   1695183700, 1986661051, 2177026350, 2456956037, 2730485921, 2820302411,
   3259730800, 3345764771, 3516065817, 3600352804, 4094571909, 275423344,
   430227734, 506948616, 659060556, 883997877, 958139571, 1322822218,
   1537002063, 1747873779, 1955562222, 2024104815, 2227730452, 2361852424,
   2428436474, 2756734187, 3204031479, 3329325298]

/-- One SHA-256 compression round. -/
def shaRound (s : Sha256State) (k w : Nat) : Sha256State :=
  let t1 := w32 (s.h + bsig1 s.e + chFn s.e s.f s.g + k + w)
  let t2 := w32 (bsig0 s.a + majFn s.a s.b s.c)
  ⟨w32 (t1 + t2), s.a, s.b, s.c, w32 (s.d + t1), s.e, s.f, s.g⟩

/-- Append the next word of the SHA-256 message schedule. -/
def schedStep (ws : List Nat) : List Nat :=
  ws ++ [w32 (ssig1 (ws.getD (ws.length - 2) 0) + ws.getD (ws.length - 7) 0 +
              ssig0 (ws.getD (ws.length - 15) 0) + ws.getD (ws.length - 16) 0)]

/-- Extend the 16 block words by the given number of schedule steps. -/
def buildSched : Nat → List Nat → List Nat
  | 0, ws => ws
  | k + 1, ws => buildSched k (schedStep ws)

/-- Big-endian packing of bytes into 32-bit words. -/
def wordsOfBytes : List Nat → List Nat
  | b1 :: b2 :: b3 :: b4 :: rest =>
      ((((b1 % 256) * 256 + b2 % 256) * 256 + b3 % 256) * 256 + b4 % 256) :: wordsOfBytes rest
  | _ => []

/-- SHA-256 compression of one 64-byte block. -/
def compressBlock (s : Sha256State) (block : List Nat) : Sha256State :=
  let ws := buildSched 48 (wordsOfBytes block)
  let t := (shaK.zip ws).foldl (fun st kw => shaRound st kw.1 kw.2) s
  ⟨w32 (s.a + t.a), w32 (s.b + t.b), w32 (s.c + t.c), w32 (s.d + t.d),
   w32 (s.e + t.e), w32 (s.f + t.f), w32 (s.g + t.g), w32 (s.h + t.h)⟩

/-- SHA-256 message padding: 0x80, zeros to 56 mod 64, 8-byte big-endian bit length. -/
def sha256Pad (msg : List Nat) : List Nat :=
  let L := msg.length
  let z := (120 - (L + 1) % 64) % 64
  msg ++ [128] ++ List.replicate z 0 ++
    (List.range 8).map (fun i => ((L * 8) >>> (8 * (7 - i))) % 256)

def chunksAux : Nat → List Nat → List (List Nat)
  | 0, _ => []
  | _, [] => []
  | fuel + 1, bs => bs.take 64 :: chunksAux fuel (bs.drop 64)

/-- Split a byte list into 64-byte blocks. -/
def chunks64 (bs : List Nat) : List (List Nat) := chunksAux bs.length bs

/-- SHA-256 of a byte list: final state after compressing all padded blocks. -/
def sha256Final (msg : List Nat) : Sha256State :=
  (chunks64 (sha256Pad msg)).foldl compressBlock shaInit

/-- The 256-bit digest as a single Nat. -/
def digestNat (s : Sha256State) : Nat :=
  (((((((w32 s.a) * 4294967296 + w32 s.b) * 4294967296 + w32 s.c) * 4294967296 +
      w32 s.d) * 4294967296 + w32 s.e) * 4294967296 + w32 s.f) * 4294967296 +
      w32 s.g) * 4294967296 + w32 s.h

/-- Lowercase hex rendering of a digest, zero-padded to 64 characters,
as produced by hashlib hexdigest(). -/
def toHexPad64 (n : Nat) : String :=
  String.mk ((List.range 64).map fun i => Nat.digitChar ((n >>> (4 * (63 - i))) % 16))

/-- UTF-8 encoding of one character, as Python str.encode(). -/
def utf8Bytes (c : Char) : List Nat :=
  let n := c.toNat
  if n < 128 then [n]
  else if n < 2048 then [192 + n / 64, 128 + n % 64]
  else if n < 65536 then [224 + n / 4096, 128 + n / 64 % 64, 128 + n % 64]
  else [240 + n / 262144, 128 + n / 4096 % 64, 128 + n / 64 % 64, 128 + n % 64]

/-- UTF-8 bytes of a string. -/
def strBytes (s : String) : List Nat := s.data.flatMap utf8Bytes

/-- Model of storage.generate_content_hash: the SHA-256 hex digest of
str(sorted(data.items())).encode(). -/
def generate_content_hash (data : List (String × Value)) : String :=
  toHexPad64 (digestNat (sha256Final (strBytes (canonicalContent data))))

theorem w32_lt (n : Nat) : w32 n < 4294967296 := Nat.mod_lt _ (by norm_num)

theorem digestNat_lt (s : Sha256State) : digestNat s < 2 ^ 256 := by
  have hp : (2 : Nat) ^ 256 =
      115792089237316195423570985008687907853269984665640564039457584007913129639936 := by
    norm_num
  unfold digestNat w32
  rw [hp]
  omega

theorem generate_content_hash_length (data : List (String × Value)) :
    (generate_content_hash data).length = 64 := by
  simp [generate_content_hash, toHexPad64, String.length]

/-- Input dict of storage.insert_course. -/
structure CourseData where
  course_id : Int
  course_code : String
  course_name : String
deriving DecidableEq

/-- A row of the courses table. -/
structure CourseRow where
  course_id : Int
  course_code : String
  course_name : String
  last_synced_at : Nat
deriving DecidableEq

/-- Input dict of storage.insert_assignment.  Optional dict entries read with
dict.get are carried as a Value that is vNone when the source had null. -/
structure AssignmentData where
  assignment_id : Int
  course_id : Int
  course_name : String
  name : Value
  description : Value
  due_at : Value
  points_possible : Value
  html_url : Value
  submission_status : Value
deriving DecidableEq

/-- A row of the assignments table.  updated_at is set only by the
ON CONFLICT update branch. -/
structure AssignmentRow where
  assignment_id : Int
  course_id : Int
  course_name : String
  name : Value
  description : Value
  due_at : Value
  points_possible : Value
  html_url : Value
  submission_status : Value
  content_hash : String
  last_synced_at : Nat
  updated_at : Option Nat
deriving DecidableEq

/-- Input dict of storage.insert_announcement.  The title key is optional in
the function itself (dict.get with a default), hence Option. -/
structure AnnouncementData where
  id : Int
  course_id : Int
  course_name : String
  title : Option Value
  message : Value
  posted_at : Value
  html_url : Value
deriving DecidableEq

/-- A row of the announcements table. -/
structure AnnouncementRow where
  announcement_id : Int
  course_id : Int
  course_name : String
  title : Value
  message : Value
  posted_at : Value
  html_url : Value
  content_hash : String
  last_synced_at : Nat
deriving DecidableEq

/-- Input dict of storage.insert_front_page. -/
structure FrontPageData where
  course_id : Int
  course_name : String
  title : Value
  body : Value
  updated_at : Value
deriving DecidableEq

/-- A row of the front_pages table; course_id is the primary key. -/
structure FrontPageRow where
  course_id : Int
  course_name : String
  title : Value
  body : Value
  updated_at : Value
  content_hash : String
  last_synced_at : Nat
deriving DecidableEq

/-- hash_data built inside insert_assignment: name, due_at, description,
points_possible, in that insertion order. -/
def assignmentHashData (d : AssignmentData) : List (String × Value) :=
  [("name", d.name), ("due_at", d.due_at),
   ("description", d.description), ("points_possible", d.points_possible)]

/-- The content hash insert_assignment stores. -/
def assignmentContentHash (d : AssignmentData) : String :=
  generate_content_hash (assignmentHashData d)

/-- hash_data built inside insert_announcement: title (without the Untitled
default), message, posted_at. -/
def announcementHashData (d : AnnouncementData) : List (String × Value) :=
  [("title", d.title.getD .vNone), ("message", d.message), ("posted_at", d.posted_at)]

def announcementContentHash (d : AnnouncementData) : String :=
  generate_content_hash (announcementHashData d)

/-- hash_data built inside insert_front_page: title, body, updated_at. -/
def frontPageHashData (d : FrontPageData) : List (String × Value) :=
  [("title", d.title), ("body", d.body), ("updated_at", d.updated_at)]

def frontPageContentHash (d : FrontPageData) : String :=
  generate_content_hash (frontPageHashData d)

/-- The INSERT ... ON CONFLICT (course_id) DO UPDATE statement of
insert_course, as a pure function on the courses table. -/
def upsertCourse (now : Nat) (tbl : List CourseRow) (d : CourseData) : List CourseRow :=
  if tbl.any fun r => r.course_id == d.course_id then
    tbl.map fun r =>
      if r.course_id == d.course_id then
        { r with course_code := d.course_code, course_name := d.course_name,
                 last_synced_at := now }
      else r
  else
    tbl ++ [{ course_id := d.course_id, course_code := d.course_code,
              course_name := d.course_name, last_synced_at := now }]

/-- The INSERT ... ON CONFLICT (assignment_id) DO UPDATE statement of
insert_assignment.  The DO UPDATE SET clause lists name, description, due_at,
points_possible, submission_status, content_hash, last_synced_at, updated_at;
course_id, course_name and html_url are not in the SET clause, so on conflict
they keep their stored values. -/
def upsertAssignment (now : Nat) (tbl : List AssignmentRow) (d : AssignmentData) :
    List AssignmentRow :=
  if tbl.any fun r => r.assignment_id == d.assignment_id then
    tbl.map fun r =>
      if r.assignment_id == d.assignment_id then
        { r with name := d.name, description := d.description, due_at := d.due_at,
                 points_possible := d.points_possible,
                 submission_status := d.submission_status,
                 content_hash := assignmentContentHash d,
                 last_synced_at := now, updated_at := some now }
      else r
  else
    tbl ++ [{ assignment_id := d.assignment_id, course_id := d.course_id,
              course_name := d.course_name, name := d.name,
              description := d.description, due_at := d.due_at,
              points_possible := d.points_possible, html_url := d.html_url,
              submission_status := d.submission_status,
              content_hash := assignmentContentHash d,
              last_synced_at := now, updated_at := none }]

/-- The INSERT ... ON CONFLICT (announcement_id) DO UPDATE statement of
insert_announcement.  The SET clause lists title, message, posted_at,
content_hash, last_synced_at; course fields and html_url keep stored values. -/
def upsertAnnouncement (now : Nat) (tbl : List AnnouncementRow) (d : AnnouncementData) :
    List AnnouncementRow :=
  if tbl.any fun r => r.announcement_id == d.id then
    tbl.map fun r =>
      if r.announcement_id == d.id then
        { r with title := d.title.getD (.vStr "Untitled"), message := d.message,
                 posted_at := d.posted_at,
                 content_hash := announcementContentHash d, last_synced_at := now }
      else r
  else
    tbl ++ [{ announcement_id := d.id, course_id := d.course_id,
              course_name := d.course_name,
              title := d.title.getD (.vStr "Untitled"), message := d.message,
              posted_at := d.posted_at, html_url := d.html_url,
              content_hash := announcementContentHash d, last_synced_at := now }]

/-- The INSERT ... ON CONFLICT (course_id) DO UPDATE statement of
insert_front_page.  The SET clause lists title, body, updated_at,
content_hash, last_synced_at; course_name keeps its stored value. -/
def upsertFrontPage (now : Nat) (tbl : List FrontPageRow) (d : FrontPageData) :
    List FrontPageRow :=
  if tbl.any fun r => r.course_id == d.course_id then
    tbl.map fun r =>
      if r.course_id == d.course_id then
        { r with title := d.title, body := d.body, updated_at := d.updated_at,
                 content_hash := frontPageContentHash d, last_synced_at := now }
      else r
  else
    tbl ++ [{ course_id := d.course_id, course_name := d.course_name,
              title := d.title, body := d.body, updated_at := d.updated_at,
              content_hash := frontPageContentHash d, last_synced_at := now }]

/-- storage.insert_course: on a database error (modelled by the failure
oracle) the transaction rolls back (table unchanged) and False is returned;
otherwise the upsert commits and True is returned. -/
def insert_course (fails : CourseData → Bool) (now : Nat) (tbl : List CourseRow)
    (d : CourseData) : Bool × List CourseRow :=
  if fails d then (false, tbl) else (true, upsertCourse now tbl d)

/-- storage.insert_assignment with the same error convention. -/
def insert_assignment (fails : AssignmentData → Bool) (now : Nat)
    (tbl : List AssignmentRow) (d : AssignmentData) : Bool × List AssignmentRow :=
  if fails d then (false, tbl) else (true, upsertAssignment now tbl d)

/-- storage.insert_announcement with the same error convention. -/
def insert_announcement (fails : AnnouncementData → Bool) (now : Nat)
    (tbl : List AnnouncementRow) (d : AnnouncementData) : Bool × List AnnouncementRow :=
  if fails d then (false, tbl) else (true, upsertAnnouncement now tbl d)

/-- storage.insert_front_page with the same error convention. -/
def insert_front_page (fails : FrontPageData → Bool) (now : Nat)
    (tbl : List FrontPageRow) (d : FrontPageData) : Bool × List FrontPageRow :=
  if fails d then (false, tbl) else (true, upsertFrontPage now tbl d)

/-- A course item as returned by get_active_courses: id, name, course_code
all present after normalization. -/
structure CanvasCourse where
  id : Int
  name : String
  course_code : String
deriving DecidableEq

/-- A fetched assignment dict after fetch_all adds course context.  Keys the
sync script reads with dict.get are Options; some vNone models a present
null. -/
structure CanvasAssignment where
  id : Int
  course_id : Int
  course_name : String
  name : Option Value
  description : Option Value
  due_at : Option Value
  points_possible : Option Value
  html_url : Option Value
  submission_types : Option Value
deriving DecidableEq

/-- A fetched announcement dict after fetch_all adds course context. -/
structure CanvasAnnouncement where
  id : Int
  course_id : Int
  course_name : String
  title : Option Value
  message : Option Value
  posted_at : Option Value
  html_url : Option Value
deriving DecidableEq

/-- A fetched front page dict after fetch_all adds course context. -/
structure CanvasFrontPage where
  course_id : Int
  course_name : String
  title : Option Value
  body : Option Value
  updated_at : Option Value
deriving DecidableEq

/-- The aggregate returned by fetch_all, restricted to the four keys the
sync script reads (fetch_all also returns quizzes and modules, which
sync_canvas_to_database never touches). -/
structure CanvasData where
  courses : List CanvasCourse
  assignments : List CanvasAssignment
  announcements : List CanvasAnnouncement
  front_pages : List CanvasFrontPage
deriving DecidableEq

/-- The course_data mapping in sync_canvas_to_database. -/
def mapCourse (c : CanvasCourse) : CourseData :=
  { course_id := c.id, course_code := c.course_code, course_name := c.name }

/-- The assignment_data mapping in sync_canvas_to_database, with the
Untitled default for name and submission_types feeding submission_status. -/
def mapAssignment (a : CanvasAssignment) : AssignmentData :=
  { assignment_id := a.id, course_id := a.course_id, course_name := a.course_name,
    name := a.name.getD (.vStr "Untitled"), description := a.description.getD .vNone,
    due_at := a.due_at.getD .vNone, points_possible := a.points_possible.getD .vNone,
    html_url := a.html_url.getD .vNone,
    submission_status := a.submission_types.getD .vNone }

/-- The announcement_data mapping in sync_canvas_to_database. -/
def mapAnnouncement (a : CanvasAnnouncement) : AnnouncementData :=
  { id := a.id, course_id := a.course_id, course_name := a.course_name,
    title := some (a.title.getD (.vStr "Untitled")), message := a.message.getD .vNone,
    posted_at := a.posted_at.getD .vNone, html_url := a.html_url.getD .vNone }

/-- The front_page_data mapping in sync_canvas_to_database. -/
def mapFrontPage (f : CanvasFrontPage) : FrontPageData :=
  { course_id := f.course_id, course_name := f.course_name,
    title := f.title.getD .vNone, body := f.body.getD .vNone,
    updated_at := f.updated_at.getD .vNone }

/-- One for-loop of the sync script over one entity type: run the insert on
each record in order, incrementing the counter on True.  Returns the counter,
the final table, and the trace of (record, returned-Boolean) pairs in order
of execution. -/
def persistLoop {ρ α : Type} (step : List ρ → α → Bool × List ρ) :
    List α → List ρ → Nat × List ρ × List (α × Bool)
  | [], tbl => (0, tbl, [])
  | x :: xs, tbl =>
    let r := step tbl x
    let rest := persistLoop step xs r.2
    ((if r.1 then 1 else 0) + rest.1, rest.2.1, (x, r.1) :: rest.2.2)

/-- The per-entity-type database failure oracles: fails d means the
execute/commit for record d raises in the current run. -/
structure FailOracle where
  course : CourseData → Bool
  assignment : AssignmentData → Bool
  announcement : AnnouncementData → Bool
  frontPage : FrontPageData → Bool

/-- The state of the relational store, one list of rows per table. -/
structure DB where
  courses : List CourseRow
  assignments : List AssignmentRow
  announcements : List AnnouncementRow
  front_pages : List FrontPageRow
deriving DecidableEq

/-- The stats dict of sync_canvas_to_database: its exact keys. -/
structure SyncStats where
  courses : Nat
  assignments : Nat
  announcements : Nat
  front_pages : Nat
  errors : List String
deriving DecidableEq

/-- Exceptions that can escape the fetch part of the try block:
CanvasAPIError, or any other exception (config errors etc.). -/
inductive SyncExc where
  | canvasAPIError : String → SyncExc
  | unexpected : String → SyncExc
deriving DecidableEq

def coursePhase (fo : FailOracle) (now : Nat) (db : DB) (cd : CanvasData) :=
  persistLoop (insert_course fo.course now) (cd.courses.map mapCourse) db.courses

def assignmentPhase (fo : FailOracle) (now : Nat) (db : DB) (cd : CanvasData) :=
  persistLoop (insert_assignment fo.assignment now)
    (cd.assignments.map mapAssignment) db.assignments

def announcementPhase (fo : FailOracle) (now : Nat) (db : DB) (cd : CanvasData) :=
  persistLoop (insert_announcement fo.announcement now)
    (cd.announcements.map mapAnnouncement) db.announcements

def frontPagePhase (fo : FailOracle) (now : Nat) (db : DB) (cd : CanvasData) :=
  persistLoop (insert_front_page fo.frontPage now)
    (cd.front_pages.map mapFrontPage) db.front_pages

/-- The body of the try block after a successful fetch: the four persist
loops of sync_canvas_to_database, each over its own table, errors left []. -/
def processCanvasData (fo : FailOracle) (now : Nat) (db : DB) (cd : CanvasData) :
    SyncStats × DB :=
  ({ courses := (coursePhase fo now db cd).1,
     assignments := (assignmentPhase fo now db cd).1,
     announcements := (announcementPhase fo now db cd).1,
     front_pages := (frontPagePhase fo now db cd).1,
     errors := [] },
   { courses := (coursePhase fo now db cd).2.1,
     assignments := (assignmentPhase fo now db cd).2.1,
     announcements := (announcementPhase fo now db cd).2.1,
     front_pages := (frontPagePhase fo now db cd).2.1 })

/-- The try block of sync_canvas_to_database: agent init plus fetch_all may
raise (the Except input), after which the persist loops cannot raise. -/
def sync_try_block (fo : FailOracle) (now : Nat) (db : DB)
    (fetched : Except SyncExc CanvasData) : Except SyncExc (SyncStats × DB) := do
  let cd ← fetched
  pure (processCanvasData fo now db cd)

/-- sync_canvas_to_database: the try/except structure.  A CanvasAPIError or
any other exception is caught, formatted, appended to stats errors and the
stats dict (still holding zero counts) is returned; the store is untouched. -/
def sync_canvas_to_database (fo : FailOracle) (now : Nat) (db : DB)
    (fetched : Except SyncExc CanvasData) : SyncStats × DB :=
  match sync_try_block fo now db fetched with
  | .ok r => r
  | .error (.canvasAPIError m) =>
      ({ courses := 0, assignments := 0, announcements := 0, front_pages := 0,
         errors := ["Canvas API error: " ++ m] }, db)
  | .error (.unexpected m) =>
      ({ courses := 0, assignments := 0, announcements := 0, front_pages := 0,
         errors := ["Unexpected error during sync: " ++ m] }, db)

/-- sync_canvas.main: exit code 1 when stats errors is truthy (non-empty),
else exit code 0. -/
def mainEntry (fo : FailOracle) (now : Nat) (db : DB)
    (fetched : Except SyncExc CanvasData) : Nat :=
  if (sync_canvas_to_database fo now db fetched).1.errors.isEmpty then 0 else 1

/-- A Canvas API GET request: the endpoint path and the per_page query
parameter when the code sets one. -/
structure ApiRequest where
  endpoint : String
  perPage : Option Nat
deriving DecidableEq

/-- What the HTTP layer hands back for one request: a JSON body (null or a
value), an HTTP 4xx/5xx error with status code and the message of a
structured error body when one parses, or a transport failure. -/
inductive ApiResponse (α : Type) where
  | ok : Option α → ApiResponse α
  | httpError : Nat → Option String → ApiResponse α
  | netError : String → ApiResponse α
deriving DecidableEq

/-- The str() of a requests HTTPError, which begins with the status code
digits. -/
def statusText (st : Nat) : String := toString st ++ " Client Error"

/-- CanvasAgent._make_request: raise_for_status plus error translation.  On
an HTTPError the message is taken from the structured error body when it
parses, else from str(e); either way it is wrapped in a CanvasAPIError
(modelled as the error message string).  On a transport error a Network
error CanvasAPIError is raised.  Otherwise the parsed JSON is returned. -/
def make_request {α : Type} (resp : ApiResponse α) : Except String (Option α) :=
  match resp with
  | .ok j => .ok j
  | .httpError st body => .error ("Canvas API error: " ++ body.getD (statusText st))
  | .netError m => .error ("Network error: " ++ m)

/-- Substring test on character lists, modelling the Python in operator on
str used by get_course_quizzes to detect 404s. -/
def hasSubstr (needle hay : List Char) : Bool :=
  hay.tails.any fun t => needle.isPrefixOf t

def contains404 (s : String) : Bool := hasSubstr "404".data s.data

/-- A raw course dict from the favorites endpoint: id is indexed directly,
name and course_code are read with dict.get defaults. -/
structure CanvasCourseJson where
  id : Int
  name : Option String
  course_code : Option String
deriving DecidableEq

/-- CanvasAgent.get_active_courses.  There is no None check on the parsed
body: the list comprehension iterates the response directly, so a JSON null
body raises a TypeError (modelled as an error result) instead of being
normalized to an empty list. -/
def get_active_courses (resp : ApiResponse (List CanvasCourseJson)) :
    Except String (List CanvasCourse) :=
  match make_request resp with
  | .error e => .error e
  | .ok none => .error "TypeError: NoneType object is not iterable"
  | .ok (some cs) => .ok (cs.map fun c =>
      { id := c.id, name := c.name.getD "Unnamed Course",
        course_code := c.course_code.getD "N/A" })

/-- CanvasAgent.get_course_assignments: one request, None normalized to []. -/
def get_course_assignments {α : Type} (resp : ApiResponse (List α)) :
    Except String (List α) :=
  match make_request resp with
  | .error e => .error e
  | .ok j => .ok (j.getD [])

/-- CanvasAgent.get_course_announcements: one request, None normalized to []. -/
def get_course_announcements {α : Type} (resp : ApiResponse (List α)) :
    Except String (List α) :=
  match make_request resp with
  | .error e => .error e
  | .ok j => .ok (j.getD [])

/-- CanvasAgent.get_course_modules: one request, None normalized to []. -/
def get_course_modules {α : Type} (resp : ApiResponse (List α)) :
    Except String (List α) :=
  match make_request resp with
  | .error e => .error e
  | .ok j => .ok (j.getD [])

/-- CanvasAgent.get_course_quizzes: one request; a CanvasAPIError whose text
contains the substring 404 is treated as an empty list, any other error is
re-raised; a None body is normalized to []. -/
def get_course_quizzes {α : Type} (resp : ApiResponse (List α)) :
    Except String (List α) :=
  match make_request resp with
  | .error e => if contains404 e then .ok [] else .error e
  | .ok j => .ok (j.getD [])

/-- CanvasAgent.get_course_front_page: one request; a None body is returned
as the empty dict (modelled as none); there is no except clause, so every
CanvasAPIError — including a 404 for a course with no front page —
propagates to the caller. -/
def get_course_front_page {α : Type} (resp : ApiResponse α) :
    Except String (Option α) :=
  match make_request resp with
  | .error e => .error e
  | .ok j => .ok j

/-- Canvas server paging behaviour for a collection endpoint: the response
to a single request is the first page, min(per_page, 100) items, with the
documented default page size of 10 when per_page is absent. -/
def canvasFirstPage {α : Type} (items : List α) (req : ApiRequest) : List α :=
  items.take (min (req.perPage.getD 10) 100)

/-- The single request built by get_course_assignments
(per_page=100 in the query string). -/
def assignmentsRequest (course_id : Int) : ApiRequest :=
  { endpoint := "/api/v1/courses/" ++ toString course_id ++ "/assignments",
    perPage := some 100 }

/-- The single request built by get_course_announcements (per_page=100). -/
def announcementsRequest (course_id : Int) : ApiRequest :=
  { endpoint := "/api/v1/announcements?context_codes=course_" ++ toString course_id,
    perPage := some 100 }

/-- The single request built by get_course_quizzes (no per_page parameter). -/
def quizzesRequest (course_id : Int) : ApiRequest :=
  { endpoint := "/api/v1/courses/" ++ toString course_id ++ "/quizzes",
    perPage := none }

/-- The single request built by get_course_modules (no per_page parameter). -/
def modulesRequest (course_id : Int) : ApiRequest :=
  { endpoint := "/api/v1/courses/" ++ toString course_id ++ "/modules",
    perPage := none }

/-- The requests get_course_assignments performs: the body calls
_make_request exactly once and never follows a next-page link. -/
def assignmentsRequestsMade (course_id : Int) : List ApiRequest :=
  [assignmentsRequest course_id]

def quizzesRequestsMade (course_id : Int) : List ApiRequest :=
  [quizzesRequest course_id]

/-- End-to-end: get_course_assignments against a course whose assignments
collection holds the given items, served by a paginating Canvas server. -/
def fetchAssignmentsFromServer {α : Type} (course_id : Int) (items : List α) :
    Except String (List α) :=
  get_course_assignments (.ok (some (canvasFirstPage items (assignmentsRequest course_id))))

/-- End-to-end: get_course_quizzes against a course whose quizzes collection
holds the given items. -/
def fetchQuizzesFromServer {α : Type} (course_id : Int) (items : List α) :
    Except String (List α) :=
  get_course_quizzes (.ok (some (canvasFirstPage items (quizzesRequest course_id))))

theorem insert_course_fst (fails : CourseData → Bool) (now : Nat)
    (tbl : List CourseRow) (d : CourseData) :
    (insert_course fails now tbl d).1 = !fails d := by
  cases h : fails d <;> simp [insert_course, h]

theorem insert_assignment_fst (fails : AssignmentData → Bool) (now : Nat)
    (tbl : List AssignmentRow) (d : AssignmentData) :
    (insert_assignment fails now tbl d).1 = !fails d := by
  cases h : fails d <;> simp [insert_assignment, h]

theorem insert_announcement_fst (fails : AnnouncementData → Bool) (now : Nat)
    (tbl : List AnnouncementRow) (d : AnnouncementData) :
    (insert_announcement fails now tbl d).1 = !fails d := by
  cases h : fails d <;> simp [insert_announcement, h]

theorem insert_front_page_fst (fails : FrontPageData → Bool) (now : Nat)
    (tbl : List FrontPageRow) (d : FrontPageData) :
    (insert_front_page fails now tbl d).1 = !fails d := by
  cases h : fails d <;> simp [insert_front_page, h]

/-- A persist loop whose step succeeds exactly when the failure oracle does
not fire counts the non-failing records and attempts every record in order. -/
theorem persistLoop_stateless {ρ α : Type} (fails : α → Bool)
    (step : List ρ → α → Bool × List ρ)
    (hstep : ∀ tbl x, (step tbl x).1 = !fails x) :
    ∀ (xs : List α) (tbl : List ρ),
      (persistLoop step xs tbl).1 = (xs.filter fun x => !fails x).length ∧
      (persistLoop step xs tbl).2.2 = xs.map fun x => (x, !fails x)
  | [], _ => ⟨rfl, rfl⟩
  | x :: xs, tbl => by
    obtain ⟨ihc, iht⟩ := persistLoop_stateless fails step hstep xs (step tbl x).2
    constructor
    · simp only [persistLoop, ihc, hstep, List.filter_cons]
      cases fails x <;> simp [Nat.add_comm]
    · simp only [persistLoop, iht, hstep, List.map_cons]

/-- C1: For every batch of fetched records processed by the sync
orchestrator, a per-record persistence failure does not abort the run: every
record of every entity type is attempted (the execution trace lists all of
them, in order, so in particular the records after any failing one), the
final per-entity-type success count in the returned report equals exactly
the number of records whose upsert succeeded, one failure outcome is traced
(and logged by the insert function) for each failing record, and the report
returns normally with an empty errors list. -/
theorem C1_partial_failure_isolation (fo : FailOracle) (now : Nat) (db : DB)
    (cd : CanvasData) :
    (sync_canvas_to_database fo now db (Except.ok cd)).1.courses =
      ((cd.courses.map mapCourse).filter fun d => !fo.course d).length ∧
    (sync_canvas_to_database fo now db (Except.ok cd)).1.assignments =
      ((cd.assignments.map mapAssignment).filter fun d => !fo.assignment d).length ∧
    (sync_canvas_to_database fo now db (Except.ok cd)).1.announcements =
      ((cd.announcements.map mapAnnouncement).filter fun d => !fo.announcement d).length ∧
    (sync_canvas_to_database fo now db (Except.ok cd)).1.front_pages =
      ((cd.front_pages.map mapFrontPage).filter fun d => !fo.frontPage d).length ∧
    (coursePhase fo now db cd).2.2 =
      (cd.courses.map mapCourse).map (fun d => (d, !fo.course d)) ∧
    (assignmentPhase fo now db cd).2.2 =
      (cd.assignments.map mapAssignment).map (fun d => (d, !fo.assignment d)) ∧
    (announcementPhase fo now db cd).2.2 =
      (cd.announcements.map mapAnnouncement).map (fun d => (d, !fo.announcement d)) ∧
    (frontPagePhase fo now db cd).2.2 =
      (cd.front_pages.map mapFrontPage).map (fun d => (d, !fo.frontPage d)) ∧
    (sync_canvas_to_database fo now db (Except.ok cd)).1.errors = [] := by
  have hc := persistLoop_stateless fo.course (insert_course fo.course now)
    (fun tbl x => insert_course_fst fo.course now tbl x)
    (cd.courses.map mapCourse) db.courses
  have ha := persistLoop_stateless fo.assignment (insert_assignment fo.assignment now)
    (fun tbl x => insert_assignment_fst fo.assignment now tbl x)
    (cd.assignments.map mapAssignment) db.assignments
  have hn := persistLoop_stateless fo.announcement (insert_announcement fo.announcement now)
    (fun tbl x => insert_announcement_fst fo.announcement now tbl x)
    (cd.announcements.map mapAnnouncement) db.announcements
  have hf := persistLoop_stateless fo.frontPage (insert_front_page fo.frontPage now)
    (fun tbl x => insert_front_page_fst fo.frontPage now tbl x)
    (cd.front_pages.map mapFrontPage) db.front_pages
  exact ⟨hc.1, ha.1, hn.1, hf.1, hc.2, ha.2, hn.2, hf.2, rfl⟩

/-- C8: the process exits 0 exactly when the run completes with zero
pipeline-level errors — per-record persistence failures (any failure oracle)
do not touch the errors list — and exits 1 whenever a pipeline-level
exception (CanvasAPIError from the source client, or any unexpected
exception) was caught; on a source client failure the report carries exactly
one error entry and zero counts for every entity type. -/
theorem C8_exit_code_contract (fo : FailOracle) (now : Nat) (db : DB) :
    (∀ m : String,
      (sync_canvas_to_database fo now db (Except.error (.canvasAPIError m))).1 =
        { courses := 0, assignments := 0, announcements := 0, front_pages := 0,
          errors := ["Canvas API error: " ++ m] } ∧
      mainEntry fo now db (Except.error (.canvasAPIError m)) = 1) ∧
    (∀ m : String,
      (sync_canvas_to_database fo now db (Except.error (.unexpected m))).1 =
        { courses := 0, assignments := 0, announcements := 0, front_pages := 0,
          errors := ["Unexpected error during sync: " ++ m] } ∧
      mainEntry fo now db (Except.error (.unexpected m)) = 1) ∧
    (∀ cd : CanvasData,
      (sync_canvas_to_database fo now db (Except.ok cd)).1.errors = [] ∧
      mainEntry fo now db (Except.ok cd) = 0) :=
  ⟨fun _ => ⟨rfl, rfl⟩, fun _ => ⟨rfl, rfl⟩, fun _ => ⟨rfl, rfl⟩⟩

/-- C10: sync_canvas_to_database is total at its public interface: for every
input, including every exception escaping the fetch part of the try block,
it returns a stats dict with exactly the keys courses, assignments,
announcements, front_pages (Nat counts) and errors (a list); an uncaught
exception never escapes (every error outcome of the try block is mapped to
a normal return), and whenever an exception was caught the errors list is
non-empty. -/
theorem C10_orchestrator_totality (fo : FailOracle) (now : Nat) (db : DB)
    (fetched : Except SyncExc CanvasData) :
    (∃ c a n f errs, sync_canvas_to_database fo now db fetched =
        ({ courses := c, assignments := a, announcements := n, front_pages := f,
           errors := errs }, (sync_canvas_to_database fo now db fetched).2)) ∧
    (∀ r, sync_try_block fo now db fetched = .ok r →
        sync_canvas_to_database fo now db fetched = r) ∧
    (∀ e, sync_try_block fo now db fetched = .error e →
        (sync_canvas_to_database fo now db fetched).1.errors ≠ []) ∧
    (∀ e, fetched = .error e →
        (sync_canvas_to_database fo now db fetched).1.errors ≠ []) := by
  refine ⟨⟨_, _, _, _, _, rfl⟩, ?_, ?_, ?_⟩
  · intro r hr
    simp [sync_canvas_to_database, hr]
  · intro e he
    cases e <;> simp [sync_canvas_to_database, he]
  · intro e he
    subst he
    cases e <;> simp [sync_canvas_to_database, sync_try_block]

/-- A failure oracle under which every insert succeeds. -/
def noFailures : FailOracle :=
  ⟨fun _ => false, fun _ => false, fun _ => false, fun _ => false⟩

/-- The empty store. -/
def emptyDB : DB := ⟨[], [], [], []⟩

theorem C10_orchestrator_totality_witness :
    (sync_canvas_to_database noFailures 0 emptyDB
        (Except.error (.canvasAPIError "boom"))).1.errors ≠ [] :=
  (C10_orchestrator_totality noFailures 0 emptyDB
    (Except.error (.canvasAPIError "boom"))).2.2.2 (.canvasAPIError "boom") rfl

theorem any_beq_eq_false {ρ : Type} (key : ρ → Int) (k : Int) (tbl : List ρ)
    (h : ∀ r ∈ tbl, key r ≠ k) : (tbl.any fun r => key r == k) = false := by
  rw [List.any_eq_false]
  intro r hr
  simp [h r hr]

/-- Updating the unique row carrying a key inside a table that was fresh for
that key, then filtering for the key, yields exactly the updated row. -/
theorem filter_key_map_update {ρ : Type} (key : ρ → Int) (k : Int) (g : ρ → ρ)
    (tbl : List ρ) (new : ρ) (hfresh : ∀ r ∈ tbl, key r ≠ k) (hnew : key new = k)
    (hg : key (g new) = k) :
    (((tbl ++ [new]).map fun r => if key r == k then g r else r).filter
      fun r => key r == k) = [g new] := by
  induction tbl with
  | nil => simp [hnew, hg]
  | cons r tbl ih =>
    have hr := hfresh r (List.mem_cons_self r tbl)
    have ih' := ih fun x hx => hfresh x (List.mem_cons_of_mem _ hx)
    have hbr : (key r == k) = false := by simp [hr]
    simp only [List.cons_append, List.map_cons, hbr, Bool.false_eq_true, if_false,
      List.filter_cons, ih']

theorem any_beq_append_eq_true {ρ : Type} (key : ρ → Int) (k : Int) (tbl : List ρ)
    (new : ρ) (hnew : key new = k) :
    ((tbl ++ [new]).any fun r => key r == k) = true := by
  simp [List.any_append, hnew]

/-- The row written by the VALUES branch of the insert_assignment upsert. -/
def insertedAssignmentRow (n : Nat) (d : AssignmentData) : AssignmentRow :=
  { assignment_id := d.assignment_id, course_id := d.course_id,
    course_name := d.course_name, name := d.name, description := d.description,
    due_at := d.due_at, points_possible := d.points_possible,
    html_url := d.html_url, submission_status := d.submission_status,
    content_hash := assignmentContentHash d, last_synced_at := n,
    updated_at := none }

/-- The row written by the VALUES branch of the insert_announcement upsert. -/
def insertedAnnouncementRow (n : Nat) (d : AnnouncementData) : AnnouncementRow :=
  { announcement_id := d.id, course_id := d.course_id,
    course_name := d.course_name, title := d.title.getD (.vStr "Untitled"),
    message := d.message, posted_at := d.posted_at, html_url := d.html_url,
    content_hash := announcementContentHash d, last_synced_at := n }

/-- The row written by the VALUES branch of the insert_front_page upsert. -/
def insertedFrontPageRow (n : Nat) (d : FrontPageData) : FrontPageRow :=
  { course_id := d.course_id, course_name := d.course_name, title := d.title,
    body := d.body, updated_at := d.updated_at,
    content_hash := frontPageContentHash d, last_synced_at := n }

theorem upsertAssignment_fresh (n : Nat) (tbl : List AssignmentRow)
    (d : AssignmentData) (h : ∀ r ∈ tbl, r.assignment_id ≠ d.assignment_id) :
    upsertAssignment n tbl d = tbl ++ [insertedAssignmentRow n d] := by
  have hfalse : (tbl.any fun r => r.assignment_id == d.assignment_id) = false := by
    rw [List.any_eq_false]; intro r hr; simp [h r hr]
  unfold upsertAssignment
  simp only [hfalse, Bool.false_eq_true, if_false]
  rfl

theorem upsert_assignment_twice (n1 n2 : Nat) (tbl : List AssignmentRow)
    (d : AssignmentData) (h : ∀ r ∈ tbl, r.assignment_id ≠ d.assignment_id) :
    ((upsertAssignment n2 (upsertAssignment n1 tbl d) d).filter
        fun r => r.assignment_id == d.assignment_id) =
      [{ assignment_id := d.assignment_id, course_id := d.course_id,
         course_name := d.course_name, name := d.name, description := d.description,
         due_at := d.due_at, points_possible := d.points_possible,
         html_url := d.html_url, submission_status := d.submission_status,
         content_hash := assignmentContentHash d, last_synced_at := n2,
         updated_at := some n2 }] := by
  rw [upsertAssignment_fresh n1 tbl d h]
  have htrue := any_beq_append_eq_true (fun r : AssignmentRow => r.assignment_id)
    d.assignment_id tbl (insertedAssignmentRow n1 d) rfl
  unfold upsertAssignment
  simp only [htrue, if_true]
  exact filter_key_map_update (fun r => r.assignment_id) d.assignment_id
    (fun r : AssignmentRow =>
      { r with
        name := d.name, description := d.description,
        due_at := d.due_at, points_possible := d.points_possible,
        submission_status := d.submission_status,
        content_hash := assignmentContentHash d, last_synced_at := n2,
        updated_at := some n2 })
    tbl (insertedAssignmentRow n1 d) h rfl rfl

theorem upsertAnnouncement_fresh (n : Nat) (tbl : List AnnouncementRow)
    (d : AnnouncementData) (h : ∀ r ∈ tbl, r.announcement_id ≠ d.id) :
    upsertAnnouncement n tbl d = tbl ++ [insertedAnnouncementRow n d] := by
  have hfalse : (tbl.any fun r => r.announcement_id == d.id) = false := by
    rw [List.any_eq_false]; intro r hr; simp [h r hr]
  unfold upsertAnnouncement
  simp only [hfalse, Bool.false_eq_true, if_false]
  rfl

theorem upsert_announcement_twice (n1 n2 : Nat) (tbl : List AnnouncementRow)
    (d : AnnouncementData) (h : ∀ r ∈ tbl, r.announcement_id ≠ d.id) :
    ((upsertAnnouncement n2 (upsertAnnouncement n1 tbl d) d).filter
        fun r => r.announcement_id == d.id) =
      [{ announcement_id := d.id, course_id := d.course_id,
         course_name := d.course_name, title := d.title.getD (.vStr "Untitled"),
         message := d.message, posted_at := d.posted_at, html_url := d.html_url,
         content_hash := announcementContentHash d, last_synced_at := n2 }] := by
  rw [upsertAnnouncement_fresh n1 tbl d h]
  have htrue := any_beq_append_eq_true (fun r : AnnouncementRow => r.announcement_id)
    d.id tbl (insertedAnnouncementRow n1 d) rfl
  unfold upsertAnnouncement
  simp only [htrue, if_true]
  exact filter_key_map_update (fun r => r.announcement_id) d.id
    (fun r : AnnouncementRow =>
      { r with
        title := d.title.getD (.vStr "Untitled"), message := d.message,
        posted_at := d.posted_at,
        content_hash := announcementContentHash d, last_synced_at := n2 })
    tbl (insertedAnnouncementRow n1 d) h rfl rfl

theorem upsertFrontPage_fresh (n : Nat) (tbl : List FrontPageRow)
    (d : FrontPageData) (h : ∀ r ∈ tbl, r.course_id ≠ d.course_id) :
    upsertFrontPage n tbl d = tbl ++ [insertedFrontPageRow n d] := by
  have hfalse : (tbl.any fun r => r.course_id == d.course_id) = false := by
    rw [List.any_eq_false]; intro r hr; simp [h r hr]
  unfold upsertFrontPage
  simp only [hfalse, Bool.false_eq_true, if_false]
  rfl

theorem upsert_front_page_twice (n1 n2 : Nat) (tbl : List FrontPageRow)
    (d : FrontPageData) (h : ∀ r ∈ tbl, r.course_id ≠ d.course_id) :
    ((upsertFrontPage n2 (upsertFrontPage n1 tbl d) d).filter
        fun r => r.course_id == d.course_id) =
      [{ course_id := d.course_id, course_name := d.course_name,
         title := d.title, body := d.body, updated_at := d.updated_at,
         content_hash := frontPageContentHash d, last_synced_at := n2 }] := by
  rw [upsertFrontPage_fresh n1 tbl d h]
  have htrue := any_beq_append_eq_true (fun r : FrontPageRow => r.course_id)
    d.course_id tbl (insertedFrontPageRow n1 d) rfl
  unfold upsertFrontPage
  simp only [htrue, if_true]
  exact filter_key_map_update (fun r => r.course_id) d.course_id
    (fun r : FrontPageRow =>
      { r with
        title := d.title, body := d.body, updated_at := d.updated_at,
        content_hash := frontPageContentHash d, last_synced_at := n2 })
    tbl (insertedFrontPageRow n1 d) h rfl rfl

/-- C2: calling the upsert twice with the same record, starting from a table
with no row for that record's natural identity (assignment_id,
announcement_id, course_id for front pages), leaves exactly one stored row
for that identity, and its content equals the second call's input: all
content fields from the record, the record's fingerprint, and the second
call's last-synced timestamp. -/
theorem C2_upsert_idempotence :
    (∀ (n1 n2 : Nat) (tbl : List AssignmentRow) (d : AssignmentData),
      (∀ r ∈ tbl, r.assignment_id ≠ d.assignment_id) →
      ((upsertAssignment n2 (upsertAssignment n1 tbl d) d).filter
          fun r => r.assignment_id == d.assignment_id) =
        [{ assignment_id := d.assignment_id, course_id := d.course_id,
           course_name := d.course_name, name := d.name,
           description := d.description, due_at := d.due_at,
           points_possible := d.points_possible, html_url := d.html_url,
           submission_status := d.submission_status,
           content_hash := assignmentContentHash d, last_synced_at := n2,
           updated_at := some n2 }]) ∧
    (∀ (n1 n2 : Nat) (tbl : List AnnouncementRow) (d : AnnouncementData),
      (∀ r ∈ tbl, r.announcement_id ≠ d.id) →
      ((upsertAnnouncement n2 (upsertAnnouncement n1 tbl d) d).filter
          fun r => r.announcement_id == d.id) =
        [{ announcement_id := d.id, course_id := d.course_id,
           course_name := d.course_name, title := d.title.getD (.vStr "Untitled"),
           message := d.message, posted_at := d.posted_at, html_url := d.html_url,
           content_hash := announcementContentHash d, last_synced_at := n2 }]) ∧
    (∀ (n1 n2 : Nat) (tbl : List FrontPageRow) (d : FrontPageData),
      (∀ r ∈ tbl, r.course_id ≠ d.course_id) →
      ((upsertFrontPage n2 (upsertFrontPage n1 tbl d) d).filter
          fun r => r.course_id == d.course_id) =
        [{ course_id := d.course_id, course_name := d.course_name,
           title := d.title, body := d.body, updated_at := d.updated_at,
           content_hash := frontPageContentHash d, last_synced_at := n2 }]) :=
  ⟨upsert_assignment_twice, upsert_announcement_twice, upsert_front_page_twice⟩

/-- A concrete assignment record used in witnesses and counterexamples. -/
def dA0 : AssignmentData :=
  { assignment_id := 3, course_id := 10, course_name := "CS101",
    name := .vStr "HW1", description := .vNone, due_at := .vStr "2026-01-01",
    points_possible := .vInt 100, html_url := .vStr "u",
    submission_status := .vNone }

/-- A concrete announcement record used in witnesses. -/
def dN0 : AnnouncementData :=
  { id := 7, course_id := 10, course_name := "CS101",
    title := some (.vStr "T"), message := .vStr "m", posted_at := .vNone,
    html_url := .vNone }

/-- A concrete front page record used in witnesses. -/
def dF0 : FrontPageData :=
  { course_id := 10, course_name := "CS101", title := .vStr "Home",
    body := .vStr "b", updated_at := .vNone }

theorem C2_upsert_idempotence_witness :
    ((upsertAssignment 2 (upsertAssignment 1 [] dA0) dA0).filter
        fun r => r.assignment_id == dA0.assignment_id) =
      [{ assignment_id := dA0.assignment_id, course_id := dA0.course_id,
         course_name := dA0.course_name, name := dA0.name,
         description := dA0.description, due_at := dA0.due_at,
         points_possible := dA0.points_possible, html_url := dA0.html_url,
         submission_status := dA0.submission_status,
         content_hash := assignmentContentHash dA0, last_synced_at := 2,
         updated_at := some 2 }] ∧
    ((upsertAnnouncement 2 (upsertAnnouncement 1 [] dN0) dN0).filter
        fun r => r.announcement_id == dN0.id) =
      [{ announcement_id := dN0.id, course_id := dN0.course_id,
         course_name := dN0.course_name, title := dN0.title.getD (.vStr "Untitled"),
         message := dN0.message, posted_at := dN0.posted_at,
         html_url := dN0.html_url, content_hash := announcementContentHash dN0,
         last_synced_at := 2 }] ∧
    ((upsertFrontPage 2 (upsertFrontPage 1 [] dF0) dF0).filter
        fun r => r.course_id == dF0.course_id) =
      [{ course_id := dF0.course_id, course_name := dF0.course_name,
         title := dF0.title, body := dF0.body, updated_at := dF0.updated_at,
         content_hash := frontPageContentHash dF0, last_synced_at := 2 }] :=
  ⟨C2_upsert_idempotence.1 1 2 [] dA0 (by simp),
   C2_upsert_idempotence.2.1 1 2 [] dN0 (by simp),
   C2_upsert_idempotence.2.2 1 2 [] dF0 (by simp)⟩

/-- A stored assignment row whose html_url differs from the incoming
record's. -/
def aRowOld : AssignmentRow :=
  { assignment_id := 3, course_id := 10, course_name := "CS101",
    name := .vStr "HW1", description := .vNone, due_at := .vStr "2026-01-01",
    points_possible := .vInt 100, html_url := .vStr "old-url",
    submission_status := .vNone, content_hash := "", last_synced_at := 0,
    updated_at := none }

/-- An incoming assignment record with a new html_url, otherwise matching
aRowOld. -/
def aDataNew : AssignmentData :=
  { assignment_id := 3, course_id := 10, course_name := "CS101",
    name := .vStr "HW1", description := .vNone, due_at := .vStr "2026-01-01",
    points_possible := .vInt 100, html_url := .vStr "new-url",
    submission_status := .vNone }

/-- C5 counterexample: upserting over an existing assignment row does NOT
overwrite html_url — the stored row keeps the old value even though the
incoming record carries a different one, contradicting the claim that all of
name, description, due_at, points_possible, html_url, submission_status are
overwritten on conflict. -/
theorem C5_counterexample :
    (upsertAssignment 5 [aRowOld] aDataNew).map (fun r => r.html_url) =
      [.vStr "old-url"] ∧
    aDataNew.html_url = .vStr "new-url" ∧
    Value.vStr "old-url" ≠ Value.vStr "new-url" :=
  ⟨rfl, rfl, by decide⟩

/-- C5 (amended): on conflict the upsert unconditionally overwrites the
content fields name, description, due_at, points_possible and
submission_status (html_url, course_id and course_name are not in the SET
clause and keep their stored values), stores the newly computed fingerprint
and refreshes last-synced-at; there is no fingerprint comparison anywhere,
so the write happens even when the stored fingerprint equals the new one. -/
theorem C5_conflict_overwrite (now : Nat) (tbl : List AssignmentRow)
    (r : AssignmentRow) (d : AssignmentData) (hmem : r ∈ tbl)
    (hid : r.assignment_id = d.assignment_id) :
    { r with
      name := d.name, description := d.description, due_at := d.due_at,
      points_possible := d.points_possible,
      submission_status := d.submission_status,
      content_hash := assignmentContentHash d, last_synced_at := now,
      updated_at := some now } ∈ upsertAssignment now tbl d := by
  have htrue : (tbl.any fun x => x.assignment_id == d.assignment_id) = true :=
    List.any_eq_true.mpr ⟨r, hmem, by simp [hid]⟩
  unfold upsertAssignment
  simp only [htrue, if_true]
  have hmap := List.mem_map_of_mem (fun x : AssignmentRow =>
    if x.assignment_id == d.assignment_id then
      { x with
        name := d.name, description := d.description, due_at := d.due_at,
        points_possible := d.points_possible,
        submission_status := d.submission_status,
        content_hash := assignmentContentHash d, last_synced_at := now,
        updated_at := some now }
    else x) hmem
  simpa [hid] using hmap

theorem C5_conflict_overwrite_witness :
    { aRowOld with
      name := aDataNew.name, description := aDataNew.description,
      due_at := aDataNew.due_at, points_possible := aDataNew.points_possible,
      submission_status := aDataNew.submission_status,
      content_hash := assignmentContentHash aDataNew, last_synced_at := 5,
      updated_at := some 5 } ∈ upsertAssignment 5 [aRowOld] aDataNew :=
  C5_conflict_overwrite 5 [aRowOld] aRowOld aDataNew (by simp) rfl

/-- Two assignment records agreeing on the hashed fields (name, due_at,
description, points_possible) but differing on identity and metadata fields. -/
def dA1 : AssignmentData :=
  { assignment_id := 1, course_id := 10, course_name := "CS101",
    name := .vStr "HW1", description := .vStr "d", due_at := .vStr "2026-01-01",
    points_possible := .vInt 100, html_url := .vStr "url-one",
    submission_status := .vStr "online" }

def dA2 : AssignmentData :=
  { assignment_id := 2, course_id := 99, course_name := "OTHER",
    name := .vStr "HW1", description := .vStr "d", due_at := .vStr "2026-01-01",
    points_possible := .vInt 100, html_url := .vStr "url-two",
    submission_status := .vNone }

/-- C7: the assignment fingerprint is computed from the fixed hash_data dict
(name, due_at, description, points_possible) only, so two records agreeing
on those four fields hash identically whatever their ids, course fields,
html_url or submission status are. -/
theorem C7_hash_depends_only_on_hashed_fields (d1 d2 : AssignmentData)
    (hn : d1.name = d2.name) (hd : d1.due_at = d2.due_at)
    (hde : d1.description = d2.description)
    (hp : d1.points_possible = d2.points_possible) :
    assignmentContentHash d1 = assignmentContentHash d2 := by
  unfold assignmentContentHash assignmentHashData
  rw [hn, hd, hde, hp]

theorem C7_hash_depends_only_on_hashed_fields_witness :
    dA1.html_url ≠ dA2.html_url ∧ dA1.assignment_id ≠ dA2.assignment_id ∧
    assignmentContentHash dA1 = assignmentContentHash dA2 :=
  ⟨by decide, by decide,
   C7_hash_depends_only_on_hashed_fields dA1 dA2 rfl rfl rfl rfl⟩

/-- C6 counterexample: the claim that any change of one field value changes
the digest cannot hold for a fixed-width digest.  The mappings with the
single key a and distinct integer values are pairwise one-value-changed
inputs, yet they map into the finite space of 256-bit digests, so two of
them must collide (pigeonhole); hence the universally quantified claim is
false, although no concrete collision is feasibly computable. -/
theorem C6_counterexample :
    ¬ (∀ n m : Int, n ≠ m →
        generate_content_hash [("a", Value.vInt n)] ≠
          generate_content_hash [("a", Value.vInt m)]) := by
  intro h
  obtain ⟨x, y, hxy, hfe⟩ := Finite.exists_ne_map_eq_of_infinite
    (fun n : Int =>
      (⟨digestNat (sha256Final (strBytes (canonicalContent [("a", Value.vInt n)]))),
        digestNat_lt _⟩ : Fin (2 ^ 256)))
  exact h x y hxy (congrArg toHexPad64 (congrArg Fin.val hfe))

/-- C6 (amended): the content fingerprint function is deterministic — any
two field mappings containing identical field-value pairs, whatever their
insertion or iteration order, hash to the same digest, which is always a
64-character hex string; a changed field value changes the digest except in
the case of a SHA-256 collision, which is astronomically unlikely but must
exist by pigeonhole and so cannot be excluded. -/
theorem C6_fingerprint_determinism :
    (∀ l1 l2 : List (String × Value), l1.Perm l2 →
      generate_content_hash l1 = generate_content_hash l2) ∧
    (∀ l : List (String × Value), (generate_content_hash l).length = 64) :=
  ⟨fun _ _ h => by
      unfold generate_content_hash
      rw [canonicalContent_eq_of_perm h],
   generate_content_hash_length⟩

theorem C6_fingerprint_determinism_witness :
    generate_content_hash [("a", Value.vNone), ("b", Value.vInt 1)] =
      generate_content_hash [("b", Value.vInt 1), ("a", Value.vNone)] :=
  C6_fingerprint_determinism.1 _ _ (by decide)

/-- C3: evaluation at the failing input.  Each fetch operation calls
_make_request exactly once and never follows a next-page link, so a course
with 101 assignments yields only the first page of 100 (per_page=100 is set
for assignments and announcements), and a course with 11 quizzes yields only
the Canvas default page of 10 (no per_page parameter is set for quizzes and
modules) — contradicting the stated behaviour of requesting further pages
until all items are retrieved. -/
theorem C3_single_request_first_page :
    (assignmentsRequestsMade 1).length = 1 ∧
    (assignmentsRequest 1).perPage = some 100 ∧
    fetchAssignmentsFromServer 1 (List.range 101) = .ok (List.range 100) ∧
    List.range 100 ≠ List.range 101 ∧
    (quizzesRequestsMade 1).length = 1 ∧
    (quizzesRequest 1).perPage = none ∧
    fetchQuizzesFromServer 1 (List.range 11) = .ok (List.range 10) ∧
    List.range 10 ≠ List.range 11 := by
  refine ⟨rfl, rfl, ?_, by decide, rfl, rfl, ?_, by decide⟩
  · simp [fetchAssignmentsFromServer, get_course_assignments, make_request,
      canvasFirstPage, assignmentsRequest, List.take_range]
  · simp [fetchQuizzesFromServer, get_course_quizzes, make_request,
      canvasFirstPage, quizzesRequest, List.take_range]

/-- C4 counterexample: a 404-class response for the front page of a course
that has none does NOT yield an empty result — get_course_front_page has no
except clause, so the CanvasAPIError propagates; and even for quizzes a 404
whose structured body message lacks the digits 404 propagates, because the
handler substring-matches the error text. -/
theorem C4_counterexample :
    get_course_front_page
        (ApiResponse.httpError 404 (some "Page not found") : ApiResponse (List Nat)) =
      .error "Canvas API error: Page not found" ∧
    get_course_front_page
        (ApiResponse.httpError 404 (some "Page not found") : ApiResponse (List Nat)) ≠
      .ok none ∧
    get_course_quizzes
        (ApiResponse.httpError 404 (some "The specified resource does not exist") :
          ApiResponse (List Nat)) =
      .error "Canvas API error: The specified resource does not exist" := by
  refine ⟨rfl, fun h => Except.noConfusion h, ?_⟩
  have h404 : contains404 "Canvas API error: The specified resource does not exist" =
      false := by decide
  simp [get_course_quizzes, make_request, h404]

/-- C4 (amended): only get_course_quizzes special-cases not-found, and it
does so by substring-matching 404 in the CanvasAPIError text: such an error
yields an empty list (this covers a 404 body that fails to parse, since
str(e) then starts with the status digits), any error without the digits
propagates, and a null body is normalized to an empty list.
get_course_front_page propagates every error — including the 404 issued for
a course with no front page — and only normalizes a null body to the empty
dict. -/
theorem C4_404_policy :
    (∀ (st : Nat) (body : Option String),
      contains404 ("Canvas API error: " ++ body.getD (statusText st)) = true →
      get_course_quizzes (ApiResponse.httpError st body : ApiResponse (List Nat)) =
        .ok []) ∧
    (∀ (st : Nat) (body : Option String),
      contains404 ("Canvas API error: " ++ body.getD (statusText st)) = false →
      get_course_quizzes (ApiResponse.httpError st body : ApiResponse (List Nat)) =
        .error ("Canvas API error: " ++ body.getD (statusText st))) ∧
    (∀ j : Option (List Nat),
      get_course_quizzes (ApiResponse.ok j) = .ok (j.getD [])) ∧
    (∀ (st : Nat) (body : Option String),
      get_course_front_page (ApiResponse.httpError st body : ApiResponse (List Nat)) =
        .error ("Canvas API error: " ++ body.getD (statusText st))) ∧
    (∀ j : Option (List Nat), get_course_front_page (ApiResponse.ok j) = .ok j) := by
  refine ⟨?_, ?_, fun _ => rfl, fun _ _ => rfl, fun _ => rfl⟩
  · intro st body h404
    simp [get_course_quizzes, make_request, h404]
  · intro st body h404
    simp [get_course_quizzes, make_request, h404]

theorem C4_404_policy_witness :
    contains404 ("Canvas API error: " ++
      (none : Option String).getD (statusText 404)) = true ∧
    get_course_quizzes (ApiResponse.httpError 404 none : ApiResponse (List Nat)) =
      .ok [] :=
  ⟨by decide, C4_404_policy.1 404 none (by decide)⟩

/-- C9 counterexample: get_active_courses has no None check — the list
comprehension iterates the parsed body directly, so a null body raises a
TypeError rather than being normalized into an empty collection. -/
theorem C9_counterexample :
    get_active_courses (ApiResponse.ok none) =
      .error "TypeError: NoneType object is not iterable" ∧
    get_active_courses (ApiResponse.ok none) ≠ .ok [] :=
  ⟨rfl, fun h => Except.noConfusion h⟩

/-- C9 (amended): the assignments, announcements, quizzes and modules fetch
operations normalize a null body into an empty list and otherwise return the
fetched list, so they never hand a null collection to the caller;
get_active_courses also never returns null, but it fails with a TypeError on
a null body instead of normalizing it. -/
theorem C9_null_normalization :
    (∀ (α : Type) (j : Option (List α)),
      get_course_assignments (ApiResponse.ok j) = .ok (j.getD [])) ∧
    (∀ (α : Type) (j : Option (List α)),
      get_course_announcements (ApiResponse.ok j) = .ok (j.getD [])) ∧
    (∀ (α : Type) (j : Option (List α)),
      get_course_quizzes (ApiResponse.ok j) = .ok (j.getD [])) ∧
    (∀ (α : Type) (j : Option (List α)),
      get_course_modules (ApiResponse.ok j) = .ok (j.getD [])) ∧
    get_active_courses (ApiResponse.ok none) =
      .error "TypeError: NoneType object is not iterable" ∧
    (∀ cs : List CanvasCourseJson,
      get_active_courses (ApiResponse.ok (some cs)) =
        .ok (cs.map fun c =>
          { id := c.id, name := c.name.getD "Unnamed Course",
            course_code := c.course_code.getD "N/A" })) :=
  ⟨fun _ _ => rfl, fun _ _ => rfl, fun _ _ => rfl, fun _ _ => rfl, rfl,
   fun _ => rfl⟩
